import Mathlib

/-!
# Verification of the `clientes` monolith (FastAPI + MySQL customer CRUD)

Shallow embedding of `src/app/main.py` and `src/app/database.py`.

Python strings are modelled as `List Char` (sequences of Unicode code
points).  Python's whitespace class (used by `str.strip` and the regex
class `\s`) is modelled by its ASCII part, which covers every character
the validators treat specially.  The regex class `\d` is modelled by
ASCII decimal digits (`Char.isDigit`).
-/

set_option maxRecDepth 8192

namespace Clientes

/-- Python whitespace (`str.strip()`, regex `\s`), ASCII part:
space, tab, newline, carriage return, vertical tab, form feed. -/
def pyIsSpace (c : Char) : Bool :=
  c = ' ' || c = '\t' || c = '\n' || c = '\r' || c = '\x0b' || c = '\x0c'

/-- `str.lstrip()`: drop leading whitespace. -/
def pyLStrip (s : List Char) : List Char := s.dropWhile pyIsSpace

/-- `str.rstrip()`: drop trailing whitespace. -/
def pyRStrip (s : List Char) : List Char := (s.reverse.dropWhile pyIsSpace).reverse

/-- `str.strip()`: drop leading and trailing whitespace. -/
def pyStrip (s : List Char) : List Char := pyRStrip (pyLStrip s)

/-- The accented characters admitted by the name regex in
`ClienteBase.validar_nombre_apellido`: `áéíóúÁÉÍÓÚñÑüÜ`. -/
def accentedChars : List Char :=
  ['á', 'é', 'í', 'ó', 'ú', 'Á', 'É', 'Í', 'Ó', 'Ú', 'ñ', 'Ñ', 'ü', 'Ü']

/-- A letter of the name alphabet: `[a-zA-ZáéíóúÁÉÍÓÚñÑüÜ]`. -/
def isSpanishLetter (c : Char) : Bool :=
  ('a' ≤ c && c ≤ 'z') || ('A' ≤ c && c ≤ 'Z') || accentedChars.contains c

/-- One character of the name regex class `[a-zA-ZáéíóúÁÉÍÓÚñÑüÜ\s]`. -/
def isNameChar (c : Char) : Bool := isSpanishLetter c || pyIsSpace c

/-- `re.match(r'^[a-zA-ZáéíóúÁÉÍÓÚñÑüÜ\s]+$', v)` as a Bool.  The `+`
requires a non-empty string; `v` is always stripped at the call site, so
the `$`-before-final-newline subtlety of Python regexes cannot arise. -/
def matchNameRegex (s : List Char) : Bool := !s.isEmpty && s.all isNameChar

/-- Lower-to-upper case table for the name alphabet (`str.upper` /
titlecasing restricted to the characters the name regex admits). -/
def upperPairs : List (Char × Char) :=
  [('a', 'A'), ('b', 'B'), ('c', 'C'), ('d', 'D'), ('e', 'E'), ('f', 'F'),
   ('g', 'G'), ('h', 'H'), ('i', 'I'), ('j', 'J'), ('k', 'K'), ('l', 'L'),
   ('m', 'M'), ('n', 'N'), ('o', 'O'), ('p', 'P'), ('q', 'Q'), ('r', 'R'),
   ('s', 'S'), ('t', 'T'), ('u', 'U'), ('v', 'V'), ('w', 'W'), ('x', 'X'),
   ('y', 'Y'), ('z', 'Z'),
   ('á', 'Á'), ('é', 'É'), ('í', 'Í'), ('ó', 'Ó'), ('ú', 'Ú'),
   ('ñ', 'Ñ'), ('ü', 'Ü')]

/-- Upper-to-lower case table, the mirror of `upperPairs`. -/
def lowerPairs : List (Char × Char) := upperPairs.map (fun p => (p.2, p.1))

/-- First-match association lookup with identity default. -/
def assocD : List (Char × Char) → Char → Char
  | [], c => c
  | (k, v) :: rest, c => if c = k then v else assocD rest c

/-- Case-map a character to upper case (identity outside the table). -/
def pyToUpper (c : Char) : Char := assocD upperPairs c

/-- Case-map a character to lower case (identity outside the table). -/
def pyToLower (c : Char) : Char := assocD lowerPairs c

/-- Python `str.title()` word-state machine: the Boolean argument records
whether the previous character was a letter; a letter after a non-letter
is uppercased, a letter after a letter is lowercased.  Faithful on the
strings it is applied to (which have passed the name regex). -/
def pyTitleAux : Bool → List Char → List Char
  | _, [] => []
  | prevAlpha, c :: cs =>
    if isSpanishLetter c then
      (if prevAlpha then pyToLower c else pyToUpper c) :: pyTitleAux true cs
    else
      c :: pyTitleAux false cs

/-- `str.title()`. -/
def pyTitle (s : List Char) : List Char := pyTitleAux false s

/-- `ClienteBase.validar_nombre_apellido` (src/app/main.py): trim, reject
empty, length 2..50, name regex, return `v.title()`.  Errors carry the
Spanish messages raised by the Python `ValueError`s. -/
def validar_nombre_apellido (v : List Char) : Except String (List Char) :=
  if v = [] ∨ pyStrip v = [] then
    .error "El campo no puede estar vacío"
  else
    let v := pyStrip v
    if v.length < 2 then
      .error "Debe tener al menos 2 caracteres"
    else if 50 < v.length then
      .error "No puede exceder 50 caracteres"
    else if matchNameRegex v then
      .ok (pyTitle v)
    else
      .error "Solo se permiten letras y espacios"

/-- One separator of the phone-cleaning regex `[\s\-\(\)]`. -/
def isPhoneSep (c : Char) : Bool := pyIsSpace c || c = '-' || c = '(' || c = ')'

/-- `re.sub(r'[\s\-\(\)]', '', s)`: delete every separator. -/
def stripSeps (s : List Char) : List Char := s.filter (fun c => !isPhoneSep c)

/-- 7 to 15 ASCII digits. -/
def digitsRun (t : List Char) : Bool :=
  t.all Char.isDigit && decide (7 ≤ t.length) && decide (t.length ≤ 15)

/-- `re.match(r'^\+?\d{7,15}$', s)` as a Bool. -/
def matchPhoneRegex : List Char → Bool
  | '+' :: rest => digitsRun rest
  | s => digitsRun s

/-- `ClienteBase.validar_telefono` (src/app/main.py): `None`/blank
normalizes to `None`; otherwise trim, strip separators, require the phone
regex on the cleaned string, and return the trimmed (non-stripped) form. -/
def validar_telefono : Option (List Char) → Except String (Option (List Char))
  | none => .ok none
  | some v =>
    if pyStrip v = [] then .ok none
    else
      let v := pyStrip v
      let telefono_limpio := stripSeps v
      if matchPhoneRegex telefono_limpio then .ok (some v)
      else .error "Formato de teléfono inválido. Debe contener entre 7 y 15 dígitos"

/-- `ClienteBase.validar_direccion` (src/app/main.py): `None`/blank
normalizes to `None`; otherwise trim and reject when longer than 200. -/
def validar_direccion : Option (List Char) → Except String (Option (List Char))
  | none => .ok none
  | some v =>
    if pyStrip v = [] then .ok none
    else
      let v := pyStrip v
      if 200 < v.length then
        .error "La dirección no puede exceder 200 caracteres"
      else .ok (some v)

/-- The five mutable fields of `ClienteBase`, in declaration order. -/
inductive Campo
  | nombre
  | apellido
  | email
  | telefono
  | direccion
deriving DecidableEq, Repr

/-- A validated customer record (the five mutable fields of `ClienteBase`). -/
structure ClienteRec where
  nombre : List Char
  apellido : List Char
  email : List Char
  telefono : Option (List Char)
  direccion : Option (List Char)
deriving DecidableEq, Repr

/-- Modelled from the spec: pydantic's `EmailStr` is an external library
type; the spec only requires "standard email syntax".  The email check is
therefore kept abstract as a parameter `emailOk`, and this wrapper turns
it into the same `Except` shape as the field validators, with pydantic's
message. -/
def validar_email (emailOk : List Char → Bool) (e : List Char) : Except String (List Char) :=
  if emailOk e then .ok e else .error "value is not a valid email address"

/-- The `(field, message)` list contributed by one validator outcome. -/
def errList (campo : Campo) : Except String α → List (Campo × String)
  | .error m => [(campo, m)]
  | .ok _ => []

/-- Construction of a `ClienteBase` (hence `ClienteCreate`/`ClienteUpdate`):
pydantic runs every field validator in field-declaration order and either
yields the record or raises `ValidationError` carrying all field errors. -/
def clienteBase_validate (emailOk : List Char → Bool)
    (nombre apellido email : List Char) (telefono direccion : Option (List Char)) :
    Except (List (Campo × String)) ClienteRec :=
  match validar_nombre_apellido nombre, validar_nombre_apellido apellido,
        validar_email emailOk email, validar_telefono telefono,
        validar_direccion direccion with
  | .ok n, .ok a, .ok e, .ok t, .ok d => .ok ⟨n, a, e, t, d⟩
  | rN, rA, rE, rT, rD =>
      .error (errList .nombre rN ++ errList .apellido rA ++ errList .email rE ++
              errList .telefono rT ++ errList .direccion rD)

/-- The Python expression `x if x else None` applied to an optional form
string: `None` and the empty string become `None`, all else is kept. -/
def noneIfFalsy : Option (List Char) → Option (List Char)
  | some [] => none
  | v => v

/-- One row of the `clientes` table (the dict returned by a
`SELECT id, nombre, apellido, email, telefono, direccion` cursor;
`NULL`/missing optional columns are `none`). -/
structure Row where
  id : Nat
  nombre : List Char
  apellido : List Char
  email : List Char
  telefono : Option (List Char)
  direccion : Option (List Char)
deriving DecidableEq, Repr

/-- The MySQL `clientes` table: its rows plus the next `AUTO_INCREMENT`
id.  The store is the external collaborator of src/app/database.py. -/
structure Store where
  rows : List Row
  nextId : Nat
deriving DecidableEq, Repr

/-- `insert_cliente` (src/app/database.py): `INSERT INTO clientes ...`,
then return `cur.lastrowid`.  The engine appends the row under the next
auto-increment id. -/
def insert_cliente (s : Store) (nombre apellido email : List Char)
    (telefono direccion : Option (List Char)) : Store × Nat :=
  ({ rows := s.rows ++ [⟨s.nextId, nombre, apellido, email, telefono, direccion⟩],
     nextId := s.nextId + 1 }, s.nextId)

/-- `delete_cliente` (src/app/database.py): `DELETE FROM clientes WHERE
id = %s`, then return `cur.rowcount > 0`. -/
def delete_cliente (s : Store) (cliente_id : Nat) : Store × Bool :=
  ({ s with rows := s.rows.filter (fun r => !(r.id == cliente_id)) },
   s.rows.any (fun r => r.id == cliente_id))

/-- Modelled from the spec: `fetch_by_id(id)` "returns one record or
not-found" (src/app/main.py imports `fetch_cliente_by_id` from
app.database, but src/app/database.py does not contain its definition). -/
def fetch_cliente_by_id (s : Store) (cliente_id : Nat) : Option Row :=
  s.rows.find? (fun r => r.id == cliente_id)

/-- Modelled from the spec: `update(id, ...)` "replaces all mutable
fields; returns whether a row was affected (false = not found)"
(src/app/main.py imports `update_cliente` from app.database, but
src/app/database.py does not contain its definition). -/
def update_cliente (s : Store) (cliente_id : Nat) (nombre apellido email : List Char)
    (telefono direccion : Option (List Char)) : Store × Bool :=
  ({ s with rows := s.rows.map (fun r =>
      if r.id == cliente_id then ⟨cliente_id, nombre, apellido, email, telefono, direccion⟩
      else r) },
   s.rows.any (fun r => r.id == cliente_id))

/-- `ClienteDB` (src/app/main.py): the permissive read model, plain typed
fields with no field validators. -/
structure ClienteDB where
  id : Nat
  nombre : List Char
  apellido : List Char
  email : List Char
  telefono : Option (List Char)
  direccion : Option (List Char)
deriving DecidableEq, Repr

/-- `map_rows_to_clientes` (src/app/main.py): one `ClienteDB` per row,
fields copied verbatim (`row.get` on the optional columns). -/
def map_rows_to_clientes (rows : List Row) : List ClienteDB :=
  rows.map (fun row =>
    { id := row.id, nombre := row.nombre, apellido := row.apellido,
      email := row.email, telefono := row.telefono, direccion := row.direccion })

/-- The observable outcome of a request handler: a redirect, a re-rendered
form carrying field errors and the previously entered values, an
`HTTPException`, or a JSON body.  The numeric field is the HTTP status. -/
inductive Response where
  | redirect : Nat → String → Response
  | formNuevo : Nat → List (Campo × String) →
      List Char → List Char → List Char →
      Option (List Char) → Option (List Char) → Response
  | formEditar : Nat → List (Campo × String) → Nat →
      List Char → List Char → List Char →
      Option (List Char) → Option (List Char) → Response
  | httpError : Nat → String → Response
  | jsonMsg : Nat → String → Response
deriving DecidableEq, Repr

/-- HTTP status carried by a `Response`. -/
def statusOf : Response → Nat
  | .redirect n _ => n
  | .formNuevo n _ _ _ _ _ _ => n
  | .formEditar n _ _ _ _ _ _ _ => n
  | .httpError n _ => n
  | .jsonMsg n _ => n

/-- `post_nuevo_cliente` (src/app/main.py): build `ClienteCreate` from the
form fields (blank optionals coerced by `x if x else None`); on success
insert and redirect 303 to `/`; on `ValidationError` re-render the form
with status 422, the error list, and the raw entered values. -/
def post_nuevo_cliente (emailOk : List Char → Bool) (s : Store)
    (nombre apellido email : List Char) (telefono direccion : Option (List Char)) :
    Store × Response :=
  match clienteBase_validate emailOk nombre apellido email
      (noneIfFalsy telefono) (noneIfFalsy direccion) with
  | .ok c =>
      ((insert_cliente s c.nombre c.apellido c.email c.telefono c.direccion).1,
       .redirect 303 "/")
  | .error errs =>
      (s, .formNuevo 422 errs nombre apellido email telefono direccion)

/-- `post_editar_cliente` (src/app/main.py): build `ClienteUpdate`; on
success call `update_cliente` and redirect 303, or raise 404 when no row
was affected; on `ValidationError` re-render the edit form (status 422)
with the error list and a `ClienteDB` echo of the raw entered values. -/
def post_editar_cliente (emailOk : List Char → Bool) (s : Store) (cliente_id : Nat)
    (nombre apellido email : List Char) (telefono direccion : Option (List Char)) :
    Store × Response :=
  match clienteBase_validate emailOk nombre apellido email
      (noneIfFalsy telefono) (noneIfFalsy direccion) with
  | .ok c =>
      let r := update_cliente s cliente_id c.nombre c.apellido c.email c.telefono c.direccion
      if r.2 then (r.1, .redirect 303 "/")
      else (r.1, .httpError 404 "Cliente no encontrado")
  | .error errs =>
      (s, .formEditar 422 errs cliente_id nombre apellido email telefono direccion)

/-- `delete_cliente_endpoint` (src/app/main.py): delete; 404 when nothing
was deleted, otherwise a 200 JSON confirmation. -/
def delete_cliente_endpoint (s : Store) (cliente_id : Nat) : Store × Response :=
  let r := delete_cliente s cliente_id
  if !r.2 then (r.1, .httpError 404 "Cliente no encontrado")
  else (r.1, .jsonMsg 200 "Cliente eliminado exitosamente")

/-- HTTP methods used by the application. -/
inductive Method
  | GET
  | POST
  | DELETE
deriving DecidableEq, Repr

/-- One segment of a route pattern: a literal or a path parameter. -/
inductive Seg
  | lit : String → Seg
  | param : Seg
deriving DecidableEq, Repr

/-- The route table registered on `app` in src/app/main.py, in
registration order (the `/static` mount is modelled separately). -/
def app_routes : List (Method × List Seg) :=
  [(.GET, []),
   (.GET, [.lit "clientes", .lit "nuevo"]),
   (.POST, [.lit "clientes", .lit "nuevo"]),
   (.DELETE, [.lit "clientes", .param]),
   (.GET, [.lit "clientes", .lit "editar", .param]),
   (.POST, [.lit "clientes", .lit "editar", .param])]

/-- Does a route pattern match a concrete path (list of segments)? -/
def segsMatch : List Seg → List String → Bool
  | [], [] => true
  | .lit s :: ps, x :: xs => s == x && segsMatch ps xs
  | .param :: ps, _ :: xs => segsMatch ps xs
  | _, _ => false

/-- `app.mount("/static", ...)`: handles `/static` and everything below. -/
def static_mount_matches : List String → Bool
  | "static" :: _ => true
  | _ => false

/-- Route lookup as FastAPI performs it on a request line. -/
def app_find_route (m : Method) (path : List String) : Option (Method × List Seg) :=
  app_routes.find? (fun r => r.1 == m && segsMatch r.2 path)

/-- The status FastAPI itself produces for a request: `some 404` when no
route and no mount matches (the framework's default), `none` when a
handler is dispatched (that handler's own status then applies). -/
def app_unmatched_status (m : Method) (path : List String) : Option Nat :=
  if (app_find_route m path).isSome || static_mount_matches path then none
  else some 404

/-! ## Lemmas about the Python string primitives -/

theorem dropWhile_idem (p : α → Bool) (l : List α) :
    (l.dropWhile p).dropWhile p = l.dropWhile p := by
  induction l with
  | nil => rfl
  | cons c cs ih =>
    by_cases h : p c
    · simp [List.dropWhile_cons, h, ih]
    · simp [List.dropWhile_cons, h]

theorem length_dropWhile_le (p : α → Bool) (l : List α) :
    (l.dropWhile p).length ≤ l.length := by
  induction l with
  | nil => simp
  | cons c cs ih =>
    by_cases h : p c
    · simp only [List.dropWhile_cons, h, if_true]
      exact ih.trans (Nat.le_succ _)
    · simp [List.dropWhile_cons, h]

theorem dropWhile_eq_self_of_length (p : α → Bool) (l : List α)
    (h : (l.dropWhile p).length = l.length) : l.dropWhile p = l := by
  cases l with
  | nil => rfl
  | cons c cs =>
    by_cases hc : p c
    · exfalso
      have := length_dropWhile_le p cs
      simp [List.dropWhile_cons, hc] at h
      omega
    · simp [List.dropWhile_cons, hc]

theorem head_false_of_dropWhile_eq_self (p : α → Bool) (c : α) (cs : List α)
    (h : (c :: cs).dropWhile p = c :: cs) : p c = false := by
  by_contra hc
  have hc' : p c = true := by revert hc; cases p c <;> simp
  have := length_dropWhile_le p cs
  simp [List.dropWhile_cons, hc'] at h
  have : (cs.dropWhile p).length = (c :: cs).length := by rw [h]
  simp at this
  omega

theorem pyLStrip_idem (s : List Char) : pyLStrip (pyLStrip s) = pyLStrip s :=
  dropWhile_idem pyIsSpace s

theorem pyRStrip_idem (s : List Char) : pyRStrip (pyRStrip s) = pyRStrip s := by
  unfold pyRStrip
  rw [List.reverse_reverse, dropWhile_idem]

theorem pyLStrip_pyRStrip (s : List Char) (h : pyLStrip s = s) :
    pyLStrip (pyRStrip s) = pyRStrip s := by
  cases s with
  | nil => rfl
  | cons c cs =>
    have hc : pyIsSpace c = false := head_false_of_dropWhile_eq_self pyIsSpace c cs h
    unfold pyRStrip
    rw [List.reverse_cons, List.dropWhile_append]
    by_cases hnil : (cs.reverse.dropWhile pyIsSpace).isEmpty
    · rw [if_pos hnil]
      simp [List.dropWhile_cons, hc, pyLStrip]
    · rw [if_neg hnil, List.reverse_append]
      simp [pyLStrip, List.dropWhile_cons, hc]

theorem pyStrip_idem (s : List Char) : pyStrip (pyStrip s) = pyStrip s := by
  unfold pyStrip
  rw [pyLStrip_pyRStrip (pyLStrip s) (pyLStrip_idem s), pyRStrip_idem]

theorem pyStrip_eq_nil_iff (s : List Char) :
    pyStrip s = [] ↔ ∀ c ∈ s, pyIsSpace c := by
  unfold pyStrip pyRStrip pyLStrip
  rw [List.reverse_eq_nil_iff, List.dropWhile_eq_nil_iff]
  constructor
  · intro h c hc
    rcases List.mem_append.1 (by
        rw [List.takeWhile_append_dropWhile (p := pyIsSpace)]; exact hc) with h1 | h1
    · exact List.mem_takeWhile_imp h1
    · exact h c (List.mem_reverse.2 h1)
  · intro h c hc
    refine h c ?_
    have : c ∈ s.dropWhile pyIsSpace := List.mem_reverse.1 hc
    have hsplit := List.takeWhile_append_dropWhile (p := pyIsSpace) (l := s)
    rw [← hsplit]
    exact List.mem_append.2 (Or.inr this)

theorem pyLStrip_length_le (s : List Char) : (pyLStrip s).length ≤ s.length :=
  length_dropWhile_le pyIsSpace s

theorem pyRStrip_length_le (s : List Char) : (pyRStrip s).length ≤ s.length := by
  unfold pyRStrip
  rw [List.length_reverse]
  calc (s.reverse.dropWhile pyIsSpace).length ≤ s.reverse.length :=
        length_dropWhile_le pyIsSpace s.reverse
    _ = s.length := List.length_reverse s

theorem pyLStrip_of_pyStrip_eq_self (s : List Char) (h : pyStrip s = s) :
    pyLStrip s = s := by
  have h1 : (pyStrip s).length ≤ (pyLStrip s).length := pyRStrip_length_le (pyLStrip s)
  have h2 : (pyLStrip s).length ≤ s.length := pyLStrip_length_le s
  have : (pyLStrip s).length = s.length := by rw [h] at h1; omega
  exact dropWhile_eq_self_of_length pyIsSpace s this

theorem pyRStrip_of_pyStrip_eq_self (s : List Char) (h : pyStrip s = s) :
    pyRStrip s = s := by
  have hl := pyLStrip_of_pyStrip_eq_self s h
  unfold pyStrip at h
  rw [hl] at h
  exact h

/-! ## Lemmas about separator filtering (phone normalization) -/

theorem filter_pyLStrip (q : Char → Bool) (hq : ∀ c, pyIsSpace c = true → q c = false)
    (s : List Char) : (pyLStrip s).filter q = s.filter q := by
  conv_rhs => rw [← List.takeWhile_append_dropWhile (p := pyIsSpace) (l := s)]
  rw [List.filter_append]
  have : (s.takeWhile pyIsSpace).filter q = [] := by
    rw [List.filter_eq_nil_iff]
    intro c hc
    simp [hq c (List.mem_takeWhile_imp hc)]
  rw [this, List.nil_append]
  rfl

theorem filter_pyRStrip (q : Char → Bool) (hq : ∀ c, pyIsSpace c = true → q c = false)
    (s : List Char) : (pyRStrip s).filter q = s.filter q := by
  unfold pyRStrip
  rw [List.filter_reverse]
  have h1 : (pyLStrip s.reverse).filter q = s.reverse.filter q := filter_pyLStrip q hq s.reverse
  unfold pyLStrip at h1
  rw [h1, ← List.filter_reverse, List.reverse_reverse]

theorem filter_pyStrip (q : Char → Bool) (hq : ∀ c, pyIsSpace c = true → q c = false)
    (s : List Char) : (pyStrip s).filter q = s.filter q := by
  unfold pyStrip
  rw [filter_pyRStrip q hq, filter_pyLStrip q hq]

theorem stripSeps_pyStrip (s : List Char) : stripSeps (pyStrip s) = stripSeps s := by
  unfold stripSeps
  refine filter_pyStrip _ (fun c hc => ?_) s
  simp [isPhoneSep, hc]

/-! ## Lemmas about the case tables and `str.title()` -/

theorem assocD_cases (m : List (Char × Char)) (c : Char) :
    assocD m c = c ∨ (c, assocD m c) ∈ m := by
  induction m with
  | nil => exact Or.inl rfl
  | cons kv rest ih =>
    obtain ⟨k, v⟩ := kv
    by_cases h : c = k
    · subst h
      right
      simp [assocD]
    · rcases ih with h1 | h1
      · left
        simpa [assocD, h] using h1
      · right
        refine List.mem_cons_of_mem _ ?_
        simpa [assocD, h] using h1

theorem upperPairs_facts : ∀ pr ∈ upperPairs,
    assocD upperPairs pr.2 = pr.2 ∧ isSpanishLetter pr.2 = isSpanishLetter pr.1 ∧
    pyIsSpace pr.2 = pyIsSpace pr.1 := by decide

theorem lowerPairs_facts : ∀ pr ∈ lowerPairs,
    assocD lowerPairs pr.2 = pr.2 ∧ isSpanishLetter pr.2 = isSpanishLetter pr.1 ∧
    pyIsSpace pr.2 = pyIsSpace pr.1 := by decide

theorem pyToUpper_pyToUpper (c : Char) : pyToUpper (pyToUpper c) = pyToUpper c := by
  rcases assocD_cases upperPairs c with h | h
  · have h' : pyToUpper c = c := h
    rw [h']
    exact h'
  · exact (upperPairs_facts _ h).1

theorem pyToLower_pyToLower (c : Char) : pyToLower (pyToLower c) = pyToLower c := by
  rcases assocD_cases lowerPairs c with h | h
  · have h' : pyToLower c = c := h
    rw [h']
    exact h'
  · exact (lowerPairs_facts _ h).1

theorem isSpanishLetter_pyToUpper (c : Char) :
    isSpanishLetter (pyToUpper c) = isSpanishLetter c := by
  rcases assocD_cases upperPairs c with h | h
  · have h' : pyToUpper c = c := h
    rw [h']
  · exact (upperPairs_facts _ h).2.1

theorem isSpanishLetter_pyToLower (c : Char) :
    isSpanishLetter (pyToLower c) = isSpanishLetter c := by
  rcases assocD_cases lowerPairs c with h | h
  · have h' : pyToLower c = c := h
    rw [h']
  · exact (lowerPairs_facts _ h).2.1

theorem pyIsSpace_pyToUpper (c : Char) : pyIsSpace (pyToUpper c) = pyIsSpace c := by
  rcases assocD_cases upperPairs c with h | h
  · have h' : pyToUpper c = c := h
    rw [h']
  · exact (upperPairs_facts _ h).2.2

theorem pyIsSpace_pyToLower (c : Char) : pyIsSpace (pyToLower c) = pyIsSpace c := by
  rcases assocD_cases lowerPairs c with h | h
  · have h' : pyToLower c = c := h
    rw [h']
  · exact (lowerPairs_facts _ h).2.2

theorem pyTitleAux_length (b : Bool) (s : List Char) :
    (pyTitleAux b s).length = s.length := by
  induction s generalizing b with
  | nil => rfl
  | cons c cs ih =>
    by_cases h : isSpanishLetter c
    · simp [pyTitleAux, h, ih]
    · simp [pyTitleAux, h, ih]

theorem pyTitleAux_map_pyIsSpace (b : Bool) (s : List Char) :
    (pyTitleAux b s).map pyIsSpace = s.map pyIsSpace := by
  induction s generalizing b with
  | nil => rfl
  | cons c cs ih =>
    by_cases h : isSpanishLetter c
    · cases b <;>
        simp [pyTitleAux, h, ih, pyIsSpace_pyToUpper, pyIsSpace_pyToLower]
    · simp [pyTitleAux, h, ih]

theorem pyTitleAux_all_isNameChar (b : Bool) (s : List Char)
    (h : s.all isNameChar = true) : (pyTitleAux b s).all isNameChar = true := by
  induction s generalizing b with
  | nil => rfl
  | cons c cs ih =>
    rw [List.all_cons, Bool.and_eq_true] at h
    obtain ⟨hc, hcs⟩ := h
    have hrest : ∀ b', (pyTitleAux b' cs).all isNameChar = true := fun b' => ih b' hcs
    by_cases hl : isSpanishLetter c
    · cases b with
      | false =>
        have hm : isNameChar (pyToUpper c) = true := by
          simp only [isNameChar, isSpanishLetter_pyToUpper, pyIsSpace_pyToUpper]
          exact hc
        simp [pyTitleAux, hl, hm, hrest]
      | true =>
        have hm : isNameChar (pyToLower c) = true := by
          simp only [isNameChar, isSpanishLetter_pyToLower, pyIsSpace_pyToLower]
          exact hc
        simp [pyTitleAux, hl, hm, hrest]
    · simp [pyTitleAux, hl, hc, hrest]

theorem pyTitleAux_idem (b : Bool) (s : List Char) :
    pyTitleAux b (pyTitleAux b s) = pyTitleAux b s := by
  induction s generalizing b with
  | nil => rfl
  | cons c cs ih =>
    by_cases h : isSpanishLetter c
    · cases b with
      | false =>
        have hm : isSpanishLetter (pyToUpper c) = true := by
          rw [isSpanishLetter_pyToUpper]; exact h
        simp [pyTitleAux, h, hm, pyToUpper_pyToUpper, ih]
      | true =>
        have hm : isSpanishLetter (pyToLower c) = true := by
          rw [isSpanishLetter_pyToLower]; exact h
        simp [pyTitleAux, h, hm, pyToLower_pyToLower, ih]
    · simp [pyTitleAux, h, ih]

theorem pyTitle_idem (s : List Char) : pyTitle (pyTitle s) = pyTitle s :=
  pyTitleAux_idem false s

theorem pyTitle_length (s : List Char) : (pyTitle s).length = s.length :=
  pyTitleAux_length false s

/-! ## `str.title()` preserves strippedness -/

theorem dropWhile_congr_map (p : α → Bool) (l l' : List α)
    (h : l.map p = l'.map p) (hd : l.dropWhile p = l) : l'.dropWhile p = l' := by
  cases l with
  | nil =>
    cases l' with
    | nil => rfl
    | cons c' cs' => simp at h
  | cons c cs =>
    cases l' with
    | nil => simp at h
    | cons c' cs' =>
      simp only [List.map_cons, List.cons.injEq] at h
      have hc : p c = false := head_false_of_dropWhile_eq_self p c cs hd
      have hc' : p c' = false := by rw [← h.1]; exact hc
      simp [List.dropWhile_cons, hc']

theorem pyLStrip_pyTitle (t : List Char) (h : pyLStrip t = t) :
    pyLStrip (pyTitle t) = pyTitle t := by
  refine dropWhile_congr_map pyIsSpace t (pyTitle t) ?_ h
  exact (pyTitleAux_map_pyIsSpace false t).symm

theorem pyRStrip_eq_self_of_rev (u : List Char)
    (h : u.reverse.dropWhile pyIsSpace = u.reverse) : pyRStrip u = u := by
  unfold pyRStrip
  rw [h, List.reverse_reverse]

theorem rev_dropWhile_of_pyRStrip_eq_self (u : List Char) (h : pyRStrip u = u) :
    u.reverse.dropWhile pyIsSpace = u.reverse := by
  unfold pyRStrip at h
  calc u.reverse.dropWhile pyIsSpace
      = (u.reverse.dropWhile pyIsSpace).reverse.reverse := (List.reverse_reverse _).symm
    _ = u.reverse := by rw [h]

theorem pyRStrip_pyTitle (t : List Char) (h : pyRStrip t = t) :
    pyRStrip (pyTitle t) = pyTitle t := by
  refine pyRStrip_eq_self_of_rev _ ?_
  refine dropWhile_congr_map pyIsSpace t.reverse (pyTitle t).reverse ?_
    (rev_dropWhile_of_pyRStrip_eq_self t h)
  have hm : (pyTitle t).map pyIsSpace = t.map pyIsSpace := pyTitleAux_map_pyIsSpace false t
  rw [List.map_reverse, List.map_reverse, hm]

theorem pyStrip_pyTitle (t : List Char) (h : pyStrip t = t) :
    pyStrip (pyTitle t) = pyTitle t := by
  have hl : pyLStrip t = t := pyLStrip_of_pyStrip_eq_self t h
  have hr : pyRStrip t = t := pyRStrip_of_pyStrip_eq_self t h
  unfold pyStrip
  rw [pyLStrip_pyTitle t hl, pyRStrip_pyTitle t hr]

/-! ## Characterization of the three field validators -/

theorem validar_nombre_apellido_eq (v : List Char) :
    validar_nombre_apellido v =
      if v = [] ∨ pyStrip v = [] then Except.error "El campo no puede estar vacío"
      else if (pyStrip v).length < 2 then Except.error "Debe tener al menos 2 caracteres"
      else if 50 < (pyStrip v).length then Except.error "No puede exceder 50 caracteres"
      else if matchNameRegex (pyStrip v) then Except.ok (pyTitle (pyStrip v))
      else Except.error "Solo se permiten letras y espacios" := rfl

theorem validar_telefono_some_eq (v : List Char) :
    validar_telefono (some v) =
      if pyStrip v = [] then Except.ok none
      else if matchPhoneRegex (stripSeps (pyStrip v)) then Except.ok (some (pyStrip v))
      else Except.error "Formato de teléfono inválido. Debe contener entre 7 y 15 dígitos" :=
  rfl

theorem validar_direccion_some_eq (v : List Char) :
    validar_direccion (some v) =
      if pyStrip v = [] then Except.ok none
      else if 200 < (pyStrip v).length then
        Except.error "La dirección no puede exceder 200 caracteres"
      else Except.ok (some (pyStrip v)) := rfl

theorem nombre_ok_of (v : List Char) (h2 : 2 ≤ (pyStrip v).length)
    (h50 : (pyStrip v).length ≤ 50) (hall : (pyStrip v).all isNameChar = true) :
    validar_nombre_apellido v = Except.ok (pyTitle (pyStrip v)) := by
  rw [validar_nombre_apellido_eq]
  have hne : ¬(v = [] ∨ pyStrip v = []) := by
    rintro (rfl | hnil)
    · simp [pyStrip, pyRStrip, pyLStrip] at h2
    · rw [hnil] at h2
      simp at h2
  have hre : matchNameRegex (pyStrip v) = true := by
    have : ¬(pyStrip v).isEmpty := by
      cases hs : pyStrip v
      · rw [hs] at h2; simp at h2
      · simp
    simp only [matchNameRegex, Bool.and_eq_true]
    exact ⟨by simpa using this, hall⟩
  rw [if_neg hne, if_neg (by omega), if_neg (by omega), if_pos hre]

theorem nombre_ok_inv (v w : List Char) (h : validar_nombre_apellido v = Except.ok w) :
    2 ≤ (pyStrip v).length ∧ (pyStrip v).length ≤ 50 ∧
    (pyStrip v).all isNameChar = true ∧ w = pyTitle (pyStrip v) := by
  rw [validar_nombre_apellido_eq] at h
  by_cases h1 : v = [] ∨ pyStrip v = []
  · rw [if_pos h1] at h
    exact Except.noConfusion h
  rw [if_neg h1] at h
  by_cases h2 : (pyStrip v).length < 2
  · rw [if_pos h2] at h
    exact Except.noConfusion h
  rw [if_neg h2] at h
  by_cases h3 : 50 < (pyStrip v).length
  · rw [if_pos h3] at h
    exact Except.noConfusion h
  rw [if_neg h3] at h
  by_cases h4 : matchNameRegex (pyStrip v) = true
  · rw [if_pos h4] at h
    rw [Except.ok.injEq] at h
    simp only [matchNameRegex, Bool.and_eq_true] at h4
    exact ⟨by omega, by omega, h4.2, h.symm⟩
  · rw [if_neg h4] at h
    exact Except.noConfusion h

theorem telefono_ok_of (s : List Char) (hne : pyStrip s ≠ [])
    (hre : matchPhoneRegex (stripSeps (pyStrip s)) = true) :
    validar_telefono (some s) = Except.ok (some (pyStrip s)) := by
  rw [validar_telefono_some_eq, if_neg hne, if_pos hre]

theorem direccion_ok_of (s : List Char) (hne : pyStrip s ≠ [])
    (hlen : (pyStrip s).length ≤ 200) :
    validar_direccion (some s) = Except.ok (some (pyStrip s)) := by
  rw [validar_direccion_some_eq, if_neg hne, if_neg (by omega)]

/-! ## Claim theorems for the field validators -/

/-- C1: the name/surname validator accepts a raw input exactly when, after
trimming, it has length 2 to 50 and consists only of letters of the
accented Spanish alphabet and whitespace; every accepted input is
returned trimmed and title-cased, and empty or whitespace-only input is
rejected. -/
theorem C1_name_validator (v : List Char) :
    ((∀ c ∈ v, pyIsSpace c) →
      validar_nombre_apellido v = Except.error "El campo no puede estar vacío") ∧
    ((∃ w, validar_nombre_apellido v = Except.ok w) ↔
      (2 ≤ (pyStrip v).length ∧ (pyStrip v).length ≤ 50 ∧
        (pyStrip v).all isNameChar = true)) ∧
    (∀ w, validar_nombre_apellido v = Except.ok w →
      w = pyTitle (pyStrip v) ∧ pyStrip w = w) := by
  refine ⟨?_, ⟨?_, ?_⟩, ?_⟩
  · intro hsp
    rw [validar_nombre_apellido_eq, if_pos (Or.inr ((pyStrip_eq_nil_iff v).2 hsp))]
  · rintro ⟨w, hw⟩
    obtain ⟨h2, h50, hall, _⟩ := nombre_ok_inv v w hw
    exact ⟨h2, h50, hall⟩
  · rintro ⟨h2, h50, hall⟩
    exact ⟨_, nombre_ok_of v h2 h50 hall⟩
  · intro w hw
    obtain ⟨_, _, _, hwt⟩ := nombre_ok_inv v w hw
    refine ⟨hwt, ?_⟩
    rw [hwt]
    exact pyStrip_pyTitle _ (pyStrip_idem v)

theorem C1_name_validator_witness :
    validar_nombre_apellido "   ".data = Except.error "El campo no puede estar vacío" ∧
    (∃ w, validar_nombre_apellido "  juAN carlos ".data = Except.ok w) :=
  ⟨(C1_name_validator "   ".data).1 (by decide),
   (C1_name_validator "  juAN carlos ".data).2.1.mpr (by decide)⟩

/-- C2: the phone validator normalizes absent/blank input to absent;
otherwise it accepts exactly when the input with spaces, dashes and
parentheses stripped matches 7 to 15 digits with an optional leading
plus, storing the original trimmed (non-stripped) form, and rejects
everything else. -/
theorem C2_phone_validator :
    validar_telefono none = Except.ok none ∧
    (∀ s, (∀ c ∈ s, pyIsSpace c) → validar_telefono (some s) = Except.ok none) ∧
    (∀ s, pyStrip s ≠ [] →
      (matchPhoneRegex (stripSeps s) = true →
        validar_telefono (some s) = Except.ok (some (pyStrip s))) ∧
      (matchPhoneRegex (stripSeps s) = false →
        validar_telefono (some s) =
          Except.error "Formato de teléfono inválido. Debe contener entre 7 y 15 dígitos")) := by
  refine ⟨rfl, ?_, ?_⟩
  · intro s hsp
    rw [validar_telefono_some_eq, if_pos ((pyStrip_eq_nil_iff s).2 hsp)]
  · intro s hne
    constructor
    · intro hre
      exact telefono_ok_of s hne (by rw [stripSeps_pyStrip]; exact hre)
    · intro hre
      have hre' : matchPhoneRegex (stripSeps (pyStrip s)) = false := by
        rw [stripSeps_pyStrip]; exact hre
      rw [validar_telefono_some_eq, if_neg hne, if_neg (by simp [hre'])]

theorem C2_phone_validator_witness :
    validar_telefono (some " 555-0101 ".data) =
      Except.ok (some (pyStrip " 555-0101 ".data)) ∧
    validar_telefono (some "123".data) =
      Except.error "Formato de teléfono inválido. Debe contener entre 7 y 15 dígitos" :=
  ⟨(C2_phone_validator.2.2 " 555-0101 ".data (by decide)).1 (by decide),
   (C2_phone_validator.2.2 "123".data (by decide)).2 (by decide)⟩

/-- C6: the address validator normalizes absent/blank input to absent;
otherwise it trims, and fails exactly when the trimmed value exceeds 200
characters. -/
theorem C6_address_validator :
    validar_direccion none = Except.ok none ∧
    (∀ s, (∀ c ∈ s, pyIsSpace c) → validar_direccion (some s) = Except.ok none) ∧
    (∀ s, pyStrip s ≠ [] →
      ((pyStrip s).length ≤ 200 →
        validar_direccion (some s) = Except.ok (some (pyStrip s))) ∧
      (200 < (pyStrip s).length →
        validar_direccion (some s) =
          Except.error "La dirección no puede exceder 200 caracteres")) := by
  refine ⟨rfl, ?_, ?_⟩
  · intro s hsp
    rw [validar_direccion_some_eq, if_pos ((pyStrip_eq_nil_iff s).2 hsp)]
  · intro s hne
    constructor
    · intro hlen
      exact direccion_ok_of s hne hlen
    · intro hlen
      rw [validar_direccion_some_eq, if_neg hne, if_pos hlen]

theorem C6_address_validator_witness :
    validar_direccion (some " Calle Mayor 1 ".data) =
      Except.ok (some (pyStrip " Calle Mayor 1 ".data)) ∧
    validar_direccion (some (List.replicate 201 'a')) =
      Except.error "La dirección no puede exceder 200 caracteres" :=
  ⟨(C6_address_validator.2.2 " Calle Mayor 1 ".data (by decide)).1 (by decide),
   (C6_address_validator.2.2 (List.replicate 201 'a') (by decide)).2 (by decide)⟩

/-- C9: field normalization is idempotent — the value produced by each of
the name/surname, phone and address validators is a fixed point of that
validator. -/
theorem C9_validators_idempotent :
    (∀ v w, validar_nombre_apellido v = Except.ok w →
      validar_nombre_apellido w = Except.ok w) ∧
    (∀ t u, validar_telefono t = Except.ok u → validar_telefono u = Except.ok u) ∧
    (∀ t u, validar_direccion t = Except.ok u → validar_direccion u = Except.ok u) := by
  refine ⟨?_, ?_, ?_⟩
  · intro v w hw
    obtain ⟨h2, h50, hall, hwt⟩ := nombre_ok_inv v w hw
    subst hwt
    have hst : pyStrip (pyStrip v) = pyStrip v := pyStrip_idem v
    have hstw : pyStrip (pyTitle (pyStrip v)) = pyTitle (pyStrip v) :=
      pyStrip_pyTitle (pyStrip v) hst
    have hlen : (pyTitle (pyStrip v)).length = (pyStrip v).length :=
      pyTitle_length (pyStrip v)
    have hall' : (pyTitle (pyStrip v)).all isNameChar = true :=
      pyTitleAux_all_isNameChar false (pyStrip v) hall
    have hok := nombre_ok_of (pyTitle (pyStrip v))
      (by rw [hstw, hlen]; exact h2)
      (by rw [hstw, hlen]; exact h50)
      (by rw [hstw]; exact hall')
    rw [hok, hstw, pyTitle_idem]
  · intro t u h
    cases t with
    | none =>
      have h' : (Except.ok none : Except String (Option (List Char))) = Except.ok u := h
      rw [Except.ok.injEq] at h'
      subst h'
      rfl
    | some v =>
      rw [validar_telefono_some_eq] at h
      by_cases hb : pyStrip v = []
      · rw [if_pos hb, Except.ok.injEq] at h
        subst h
        rfl
      · rw [if_neg hb] at h
        by_cases hre : matchPhoneRegex (stripSeps (pyStrip v)) = true
        · rw [if_pos hre, Except.ok.injEq] at h
          subst h
          have hok := telefono_ok_of (pyStrip v) (by rw [pyStrip_idem]; exact hb)
            (by rw [pyStrip_idem]; exact hre)
          rw [hok, pyStrip_idem]
        · rw [if_neg hre] at h
          exact Except.noConfusion h
  · intro t u h
    cases t with
    | none =>
      have h' : (Except.ok none : Except String (Option (List Char))) = Except.ok u := h
      rw [Except.ok.injEq] at h'
      subst h'
      rfl
    | some v =>
      rw [validar_direccion_some_eq] at h
      by_cases hb : pyStrip v = []
      · rw [if_pos hb, Except.ok.injEq] at h
        subst h
        rfl
      · rw [if_neg hb] at h
        by_cases hlen : 200 < (pyStrip v).length
        · rw [if_pos hlen] at h
          exact Except.noConfusion h
        · rw [if_neg hlen, Except.ok.injEq] at h
          subst h
          have hok := direccion_ok_of (pyStrip v) (by rw [pyStrip_idem]; exact hb)
            (by rw [pyStrip_idem]; omega)
          rw [hok, pyStrip_idem]

theorem C9_validators_idempotent_witness :
    validar_nombre_apellido "Juan".data = Except.ok "Juan".data ∧
    validar_telefono (some "555-0101".data) = Except.ok (some "555-0101".data) ∧
    validar_direccion (some "Calle Mayor 1".data) =
      Except.ok (some "Calle Mayor 1".data) :=
  ⟨C9_validators_idempotent.1 " juan ".data "Juan".data rfl,
   C9_validators_idempotent.2.1 (some " 555-0101 ".data) (some "555-0101".data) rfl,
   C9_validators_idempotent.2.2 (some " Calle Mayor 1 ".data)
     (some "Calle Mayor 1".data) rfl⟩

/-! ## Lemmas about model construction (`clienteBase_validate`) -/

theorem clienteBase_validate_ok_of (emailOk : List Char → Bool)
    (n a e : List Char) (t d : Option (List Char)) (vn va ve : List Char)
    (vt vd : Option (List Char))
    (hN : validar_nombre_apellido n = Except.ok vn)
    (hA : validar_nombre_apellido a = Except.ok va)
    (hE : validar_email emailOk e = Except.ok ve)
    (hT : validar_telefono t = Except.ok vt)
    (hD : validar_direccion d = Except.ok vd) :
    clienteBase_validate emailOk n a e t d = Except.ok ⟨vn, va, ve, vt, vd⟩ := by
  simp only [clienteBase_validate, hN, hA, hE, hT, hD]

theorem clienteBase_validate_ok_inv (emailOk : List Char → Bool)
    (n a e : List Char) (t d : Option (List Char)) (c : ClienteRec)
    (h : clienteBase_validate emailOk n a e t d = Except.ok c) :
    validar_nombre_apellido n = Except.ok c.nombre ∧
    validar_nombre_apellido a = Except.ok c.apellido ∧
    validar_email emailOk e = Except.ok c.email ∧
    validar_telefono t = Except.ok c.telefono ∧
    validar_direccion d = Except.ok c.direccion := by
  rcases hN : validar_nombre_apellido n with mN | vN <;>
    rcases hA : validar_nombre_apellido a with mA | vA <;>
    rcases hE : validar_email emailOk e with mE | vE <;>
    rcases hT : validar_telefono t with mT | vT <;>
    rcases hD : validar_direccion d with mD | vD <;>
    simp only [clienteBase_validate, hN, hA, hE, hT, hD] at h <;>
    first
      | exact Except.noConfusion h
      | (rw [Except.ok.injEq] at h
         subst h
         exact ⟨rfl, rfl, rfl, rfl, rfl⟩)

theorem clienteBase_validate_error_ne_nil (emailOk : List Char → Bool)
    (n a e : List Char) (t d : Option (List Char)) (l : List (Campo × String))
    (h : clienteBase_validate emailOk n a e t d = Except.error l) : l ≠ [] := by
  rcases hN : validar_nombre_apellido n with mN | vN <;>
    rcases hA : validar_nombre_apellido a with mA | vA <;>
    rcases hE : validar_email emailOk e with mE | vE <;>
    rcases hT : validar_telefono t with mT | vT <;>
    rcases hD : validar_direccion d with mD | vD <;>
    simp only [clienteBase_validate, hN, hA, hE, hT, hD, errList] at h <;>
    first
      | exact Except.noConfusion h
      | (rw [Except.error.injEq] at h
         subst h
         simp)

/-- A form field that arrives omitted, as the empty string, or as a
whitespace-only string. -/
def blankFormField (t : Option (List Char)) : Prop :=
  t = none ∨ t = some [] ∨ (∃ l, t = some l ∧ l ≠ [] ∧ ∀ c ∈ l, pyIsSpace c)

theorem noneIfFalsy_blank (t : Option (List Char)) (h : blankFormField t) :
    validar_telefono (noneIfFalsy t) = Except.ok none ∧
    validar_direccion (noneIfFalsy t) = Except.ok none := by
  rcases h with rfl | rfl | ⟨l, rfl, hne, hsp⟩
  · exact ⟨rfl, rfl⟩
  · exact ⟨rfl, rfl⟩
  · have hb : pyStrip l = [] := (pyStrip_eq_nil_iff l).2 hsp
    have hni : noneIfFalsy (some l) = some l := by
      cases l with
      | nil => exact absurd rfl hne
      | cons c cs => rfl
    rw [hni]
    exact ⟨by rw [validar_telefono_some_eq, if_pos hb],
           by rw [validar_direccion_some_eq, if_pos hb]⟩

theorem clienteBase_validate_blank (emailOk : List Char → Bool)
    (n a e : List Char) (t d : Option (List Char))
    (ht : blankFormField t) (hd : blankFormField d) :
    clienteBase_validate emailOk n a e (noneIfFalsy t) (noneIfFalsy d) =
      clienteBase_validate emailOk n a e none none := by
  have h1 := (noneIfFalsy_blank t ht).1
  have h2 := (noneIfFalsy_blank d hd).2
  unfold clienteBase_validate
  rw [h1, h2, show validar_telefono (none : Option (List Char)) = Except.ok none from rfl,
    show validar_direccion (none : Option (List Char)) = Except.ok none from rfl]

/-! ## Claim theorems for the request handlers -/

/-- C5: when validation of a create or update form fails, the handler
responds 422 with the non-empty ordered field-error list and the raw
previously entered values, and the store is left untouched. -/
theorem C5_validation_failure (emailOk : List Char → Bool) (s : Store) (cliente_id : Nat)
    (n a e : List Char) (t d : Option (List Char)) (errs : List (Campo × String))
    (h : clienteBase_validate emailOk n a e (noneIfFalsy t) (noneIfFalsy d) =
      Except.error errs) :
    errs ≠ [] ∧
    post_nuevo_cliente emailOk s n a e t d =
      (s, .formNuevo 422 errs n a e t d) ∧
    post_editar_cliente emailOk s cliente_id n a e t d =
      (s, .formEditar 422 errs cliente_id n a e t d) := by
  refine ⟨clienteBase_validate_error_ne_nil emailOk n a e _ _ errs h, ?_, ?_⟩
  · simp only [post_nuevo_cliente, h]
  · simp only [post_editar_cliente, h]

theorem C5_validation_failure_witness :
    post_nuevo_cliente (fun _ => true) ⟨[], 1⟩ "x".data "Pérez".data "a@b.com".data
        none none =
      (⟨[], 1⟩, .formNuevo 422 [(Campo.nombre, "Debe tener al menos 2 caracteres")]
        "x".data "Pérez".data "a@b.com".data none none) :=
  (C5_validation_failure (fun _ => true) ⟨[], 1⟩ 0 "x".data "Pérez".data "a@b.com".data
    none none [(Campo.nombre, "Debe tener al menos 2 caracteres")] rfl).2.1

/-- C10: at the create and update handlers an omitted, empty, or
whitespace-only `telefono`/`direccion` field yields the same validated
value (absent) and the same store outcome and status as the omitted
field. -/
theorem C10_blank_optional_fields (emailOk : List Char → Bool) (s : Store)
    (cliente_id : Nat) (n a e : List Char) (t d : Option (List Char))
    (ht : blankFormField t) (hd : blankFormField d) :
    (∀ c, clienteBase_validate emailOk n a e (noneIfFalsy t) (noneIfFalsy d) =
        Except.ok c → c.telefono = none ∧ c.direccion = none) ∧
    (post_nuevo_cliente emailOk s n a e t d).1 =
      (post_nuevo_cliente emailOk s n a e none none).1 ∧
    statusOf (post_nuevo_cliente emailOk s n a e t d).2 =
      statusOf (post_nuevo_cliente emailOk s n a e none none).2 ∧
    (post_editar_cliente emailOk s cliente_id n a e t d).1 =
      (post_editar_cliente emailOk s cliente_id n a e none none).1 ∧
    statusOf (post_editar_cliente emailOk s cliente_id n a e t d).2 =
      statusOf (post_editar_cliente emailOk s cliente_id n a e none none).2 := by
  have hv := clienteBase_validate_blank emailOk n a e t d ht hd
  refine ⟨?_, ?_⟩
  · intro c hc
    obtain ⟨_, _, _, hT, hD⟩ := clienteBase_validate_ok_inv emailOk n a e _ _ c hc
    have h1 := (noneIfFalsy_blank t ht).1
    have h2 := (noneIfFalsy_blank d hd).2
    rw [h1, Except.ok.injEq] at hT
    rw [h2, Except.ok.injEq] at hD
    exact ⟨hT.symm, hD.symm⟩
  · have hnf : (noneIfFalsy none : Option (List Char)) = none := rfl
    cases hr : clienteBase_validate emailOk n a e none none with
    | ok c =>
      have hv' : clienteBase_validate emailOk n a e (noneIfFalsy t) (noneIfFalsy d) =
          Except.ok c := hv.trans hr
      simp only [post_nuevo_cliente, post_editar_cliente, hv', hnf, hr]
      refine ⟨?_, ?_, ?_, ?_⟩ <;> trivial
    | error errs =>
      have hv' : clienteBase_validate emailOk n a e (noneIfFalsy t) (noneIfFalsy d) =
          Except.error errs := hv.trans hr
      simp only [post_nuevo_cliente, post_editar_cliente, hv', hnf, hr]
      refine ⟨?_, ?_, ?_, ?_⟩ <;> trivial

theorem C10_blank_optional_fields_witness :
    (post_nuevo_cliente (fun _ => true) ⟨[], 1⟩ "juan".data "perez".data "a@b.com".data
        (some "   ".data) (some [])).1 =
      (post_nuevo_cliente (fun _ => true) ⟨[], 1⟩ "juan".data "perez".data "a@b.com".data
        none none).1 :=
  (C10_blank_optional_fields (fun _ => true) ⟨[], 1⟩ 0 "juan".data "perez".data
    "a@b.com".data (some "   ".data) (some [])
    (Or.inr (Or.inr ⟨"   ".data, rfl, by decide, by decide⟩))
    (Or.inr (Or.inl rfl))).2.1

/-! ## Lemmas about the record store -/

theorem find?_append_fresh (rows : List Row) (row : Row) (idv : Nat)
    (h : ∀ r ∈ rows, r.id ≠ idv) (hrow : row.id = idv) :
    (rows ++ [row]).find? (fun r => r.id == idv) = some row := by
  induction rows with
  | nil => simp [List.find?, hrow]
  | cons r rs ih =>
    have hr : (r.id == idv) = false := by
      simpa using h r (List.mem_cons_self r rs)
    rw [List.cons_append, List.find?_cons_of_neg _ (by simp [hr])]
    exact ih (fun x hx => h x (List.mem_cons_of_mem _ hx))

theorem any_id_eq_false (rows : List Row) (idv : Nat) (h : ∀ r ∈ rows, r.id ≠ idv) :
    rows.any (fun r => r.id == idv) = false := by
  rw [List.any_eq_false]
  intro r hr
  simpa using h r hr

theorem filter_id_ne (rows : List Row) (idv : Nat) (h : ∀ r ∈ rows, r.id ≠ idv) :
    rows.filter (fun r => !(r.id == idv)) = rows := by
  rw [List.filter_eq_self]
  intro r hr
  simpa using h r hr

theorem map_update_id_ne (rows : List Row) (idv : Nat)
    (n a e : List Char) (t d : Option (List Char)) (h : ∀ r ∈ rows, r.id ≠ idv) :
    rows.map (fun r =>
      if r.id == idv then (⟨idv, n, a, e, t, d⟩ : Row) else r) = rows := by
  induction rows with
  | nil => rfl
  | cons r rs ih =>
    have hr : (r.id == idv) = false := by
      simpa using h r (List.mem_cons_self r rs)
    simp only [List.map_cons, hr, Bool.false_eq_true, if_false]
    rw [ih (fun x hx => h x (List.mem_cons_of_mem _ hx))]

/-! ## Claim theorems for the record store and its handlers -/

/-- C3: inserting a validated record and fetching by the returned id
yields the inserted field values together with the id assigned by the
store (assuming the auto-increment invariant that existing ids are below
`nextId`). -/
theorem C3_insert_then_fetch (s : Store) (n a e : List Char)
    (t d : Option (List Char)) (hfresh : ∀ r ∈ s.rows, r.id < s.nextId) :
    fetch_cliente_by_id (insert_cliente s n a e t d).1 (insert_cliente s n a e t d).2 =
      some ⟨(insert_cliente s n a e t d).2, n, a, e, t, d⟩ := by
  unfold insert_cliente fetch_cliente_by_id
  exact find?_append_fresh s.rows _ s.nextId
    (fun r hr => Nat.ne_of_lt (hfresh r hr)) rfl

theorem C3_insert_then_fetch_witness :
    fetch_cliente_by_id
      (insert_cliente ⟨[⟨1, "Ana".data, "Gil".data, "a@g.com".data, none, none⟩], 2⟩
        "Juan".data "Perez".data "j@p.com".data (some "555-0101".data) none).1
      (insert_cliente ⟨[⟨1, "Ana".data, "Gil".data, "a@g.com".data, none, none⟩], 2⟩
        "Juan".data "Perez".data "j@p.com".data (some "555-0101".data) none).2 =
      some ⟨2, "Juan".data, "Perez".data, "j@p.com".data, some "555-0101".data, none⟩ :=
  C3_insert_then_fetch ⟨[⟨1, "Ana".data, "Gil".data, "a@g.com".data, none, none⟩], 2⟩
    "Juan".data "Perez".data "j@p.com".data (some "555-0101".data) none (by decide)

/-- C4: update and delete on an id absent from the store report
not-found through the affected-row flag (no exception), leave the store
unchanged, and the handlers map the flag to a 404 response. -/
theorem C4_not_found (s : Store) (idv : Nat) (h : ∀ r ∈ s.rows, r.id ≠ idv) :
    (∀ n a e t d, update_cliente s idv n a e t d = (s, false)) ∧
    delete_cliente s idv = (s, false) ∧
    delete_cliente_endpoint s idv = (s, .httpError 404 "Cliente no encontrado") ∧
    (∀ emailOk n a e t d c,
      clienteBase_validate emailOk n a e (noneIfFalsy t) (noneIfFalsy d) = Except.ok c →
      post_editar_cliente emailOk s idv n a e t d =
        (s, .httpError 404 "Cliente no encontrado")) := by
  have hany := any_id_eq_false s.rows idv h
  have hfil := filter_id_ne s.rows idv h
  refine ⟨?_, ?_, ?_, ?_⟩
  · intro n a e t d
    unfold update_cliente
    rw [map_update_id_ne s.rows idv n a e t d h, hany]
  · unfold delete_cliente
    rw [hfil, hany]
  · unfold delete_cliente_endpoint delete_cliente
    rw [hfil, hany]
    rfl
  · intro emailOk n a e t d c hok
    simp only [post_editar_cliente, hok]
    unfold update_cliente
    rw [map_update_id_ne s.rows idv _ _ _ _ _ h, hany]
    rfl

theorem C4_not_found_witness :
    delete_cliente_endpoint ⟨[⟨1, "Ana".data, "Gil".data, "a@g.com".data, none, none⟩], 2⟩ 9 =
      (⟨[⟨1, "Ana".data, "Gil".data, "a@g.com".data, none, none⟩], 2⟩,
        .httpError 404 "Cliente no encontrado") ∧
    post_editar_cliente (fun _ => true)
        ⟨[⟨1, "Ana".data, "Gil".data, "a@g.com".data, none, none⟩], 2⟩ 9
        "juan".data "perez".data "j@p.com".data none none =
      (⟨[⟨1, "Ana".data, "Gil".data, "a@g.com".data, none, none⟩], 2⟩,
        .httpError 404 "Cliente no encontrado") :=
  ⟨(C4_not_found ⟨[⟨1, "Ana".data, "Gil".data, "a@g.com".data, none, none⟩], 2⟩ 9
      (by decide)).2.2.1,
   (C4_not_found ⟨[⟨1, "Ana".data, "Gil".data, "a@g.com".data, none, none⟩], 2⟩ 9
      (by decide)).2.2.2 (fun _ => true) "juan".data "perez".data "j@p.com".data
      none none ⟨"Juan".data, "Perez".data, "j@p.com".data, none, none⟩ rfl⟩

/-- C7 (counterexample): a GET request for `/ping` matches no registered
route, so the framework answers 404 — not 200 with a pong body as the
claim states. -/
theorem C7_ping_counterexample :
    app_unmatched_status Method.GET ["ping"] = some 404 ∧
    (some 404 : Option Nat) ≠ some 200 := by
  exact ⟨by decide, by decide⟩

/-- C7 (amended): the application registers no `/ping` route and the
static mount does not cover `/ping`, so a GET /ping request receives the
framework's default 404 response. -/
theorem C7_ping_amended :
    app_find_route Method.GET ["ping"] = none ∧
    static_mount_matches ["ping"] = false ∧
    app_unmatched_status Method.GET ["ping"] = some 404 := by
  exact ⟨by decide, by decide, by decide⟩

/-- C8: mapping stored rows back out yields one record per row, in
order, with all field values copied unchanged, and applies no strict
field re-validation (rows whose fields the strict validators reject are
mapped all the same). -/
theorem C8_read_mapping (rows : List Row) :
    (map_rows_to_clientes rows).length = rows.length ∧
    (∀ i : Nat, (map_rows_to_clientes rows)[i]? = (rows[i]?).map
      (fun row => (⟨row.id, row.nombre, row.apellido, row.email,
        row.telefono, row.direccion⟩ : ClienteDB))) ∧
    (∀ row ∈ rows, ∀ m, validar_nombre_apellido row.nombre = Except.error m →
      (⟨row.id, row.nombre, row.apellido, row.email, row.telefono,
        row.direccion⟩ : ClienteDB) ∈ map_rows_to_clientes rows) := by
  refine ⟨by simp [map_rows_to_clientes], ?_, ?_⟩
  · intro i
    simp [map_rows_to_clientes, List.getElem?_map]
  · intro row hr m _
    exact List.mem_map.2 ⟨row, hr, rfl⟩

theorem C8_read_mapping_witness :
    (⟨7, "x".data, "y z".data, "no-es-email".data, some "abc".data, none⟩ : ClienteDB) ∈
      map_rows_to_clientes
        [⟨7, "x".data, "y z".data, "no-es-email".data, some "abc".data, none⟩] :=
  (C8_read_mapping
      [⟨7, "x".data, "y z".data, "no-es-email".data, some "abc".data, none⟩]).2.2
    ⟨7, "x".data, "y z".data, "no-es-email".data, some "abc".data, none⟩ (by simp)
    "Debe tener al menos 2 caracteres" rfl

end Clientes

namespace Clientes

example : validar_nombre_apellido " juan ".data = .ok "Juan".data := rfl
example : validar_nombre_apellido "perez".data = .ok "Perez".data := rfl
example : validar_nombre_apellido "   ".data =
    .error "El campo no puede estar vacío" := rfl
example : validar_nombre_apellido "a".data =
    .error "Debe tener al menos 2 caracteres" := rfl
example : validar_nombre_apellido "ab3".data =
    .error "Solo se permiten letras y espacios" := rfl
example : validar_telefono (some "555-0101".data) = .ok (some "555-0101".data) := rfl
example : validar_telefono (some " +34 (91) 123-45-67 ".data) =
    .ok (some "+34 (91) 123-45-67".data) := rfl
example : validar_telefono (some "123".data) =
    .error "Formato de teléfono inválido. Debe contener entre 7 y 15 dígitos" := rfl
example : validar_telefono (some "  ".data) = .ok none := rfl
example : validar_direccion (some "  Calle Mayor 1  ".data) =
    .ok (some "Calle Mayor 1".data) := rfl

end Clientes
